import Mathlib

/-!
Shallow embedding of the temperature-emissivity-separation GUI
(`tes_gui.py`) over exact rationals.  Numbers the Python code keeps as
IEEE floats are modelled as `ℚ`; a float operation whose result would be
non-finite (division by zero yielding Inf or NaN) is modelled as `none`
in `Option ℚ`.  Lists model numpy arrays.  The Planck model `bbRadiance`
lives in the external module `bb_radiance` and is taken as a function
parameter wherever the embedded code calls it.
-/

namespace TesGui

/-- A radiometric spectrum: `wavelength`/`value` pairs
(`self.sam.spectrum.wavelength`, `self.sam.spectrum.value`). -/
structure Spectrum where
  wavelength : List ℚ
  value : List ℚ
deriving DecidableEq, Repr

/-- IEEE float division as performed by numpy on finite operands:
a zero denominator yields a non-finite value (Inf or NaN), modelled
`none`; otherwise the exact quotient. -/
def floatDiv (a b : ℚ) : Option ℚ :=
  if b = 0 then none else some (a / b)

/-- `np.arange(start, stop, step)` for a positive step, in exact
arithmetic: the evenly spaced values `start + step*i` with
`i < ⌈(stop - start)/step⌉`. -/
def arange (start stop step : ℚ) : List ℚ :=
  (List.range (⌈(stop - start) / step⌉.toNat)).map
    (fun i : ℕ => start + step * (i : ℚ))

/-- The temperature grid built by both `EmissivityPlotWindow._drawPlot`
(line 1019) and `MetricPlotWindow._plot` (line 1091):
`temps = np.arange(self.lowerTemp, self.upperTemp+1, 0.1)`. -/
def tempsGrid (lowerTemp upperTemp : ℚ) : List ℚ :=
  arange lowerTemp (upperTemp + 1) (1/10)

/-- The windowSteps computation of `MainWindow.findTemperature`
(lines 752-755): `1` when `upperWin == lowerWin`, otherwise
`((upperWin-lowerWin) / windowStep) + 1`. -/
def windowStepsOf (lowerWin upperWin windowStep : ℚ) : ℚ :=
  if upperWin = lowerWin then 1 else (upperWin - lowerWin) / windowStep + 1

/-- The window parameters handed to `tes.tes`. -/
structure WindowParams where
  lowerWin : ℚ
  upperWin : ℚ
  windowStep : ℚ
  windowSteps : ℚ
  numWindows : ℤ
deriving DecidableEq, Repr

/-- Lines 732-755 of `MainWindow.findTemperature`: an empty `lowerWin`
field defaults to `upperWave - lowerWave`, an empty `upperWin` to
`lowerWin`, an empty `windowStep` to `1`, an empty `numWindows` to `1`,
then `windowSteps` is derived.  An empty GUI field is `none`; a filled
field carries its parsed numeric value. -/
def resolveWindowParams (lowerWinF upperWinF windowStepF : Option ℚ)
    (numWindowsF : Option ℤ) (lowerWave upperWave : ℚ) : WindowParams :=
  let lowerWin := match lowerWinF with
    | none => upperWave - lowerWave
    | some x => x
  let upperWin := match upperWinF with
    | none => lowerWin
    | some x => x
  let windowStep := match windowStepF with
    | none => 1
    | some x => x
  let numWindows := match numWindowsF with
    | none => 1
    | some n => n
  ⟨lowerWin, upperWin, windowStep,
   windowStepsOf lowerWin upperWin windowStep, numWindows⟩

/-- The coadd tolerance loop of `MainWindow.findTemperature`
(lines 792-797): `displayWarning = False;
for test in toleranceTests: if ((100 - (test*100)) > tolerance):
displayWarning = True`. -/
def displayWarningOf (toleranceTests : List ℚ) (tolerance : ℚ) : Bool :=
  toleranceTests.foldl
    (fun w test => if 100 - test * 100 > tolerance then true else w) false

/-- Pointwise combination of three equal-length numpy arrays
(truncating at the shortest, which never happens on the shapes the GUI
produces). -/
def map3 (f : ℚ → ℚ → ℚ → Option ℚ) : List ℚ → List ℚ → List ℚ → List (Option ℚ)
  | a :: as, b :: bs, c :: cs => f a b c :: map3 f as bs cs
  | _, _, _ => []

/-- Lines 1001-1004 of `EmissivityPlotWindow._drawPlot`:
`dwrRadiance = np.zeros(len(samRadiance))` when no downwelling file was
given, else the downwelling spectrum values. -/
def dwrRadianceOf (dwr : Option Spectrum) (n : ℕ) : List ℚ :=
  match dwr with
  | none => List.replicate n 0
  | some d => d.value

/-- The emissivity array computed in `EmissivityPlotWindow._drawPlot`
(lines 1022-1023 and 1027-1028):
`(samRadiance - dwrRadiance) / (bb - dwrRadiance)` with
`bb = bbRadiance(t, wavelength)`. -/
def emissivityRow (bb : ℚ → ℚ → ℚ) (sam : Spectrum) (dwr : Option Spectrum)
    (t : ℚ) : List (Option ℚ) :=
  map3 (fun s d w => floatDiv (s - d) (bb t w - d))
    sam.value (dwrRadianceOf dwr sam.value.length) sam.wavelength

/-- The specification formula for one wavelength:
`ε(λ) = (L_sample(λ) − L_down(λ)) / (B(T,λ) − L_down(λ))`. -/
def specEmissivityAt (bb : ℚ → ℚ → ℚ) (Lsam Ldown t w : ℚ) : Option ℚ :=
  floatDiv (Lsam - Ldown) (bb t w - Ldown)

/-- The specification's `L_down` at bin `i`: the downwelling value when
supplied, zero everywhere when absent. -/
def specLdown (dwr : Option Spectrum) (i : ℕ) : ℚ :=
  match dwr with
  | none => 0
  | some d => d.value.getD i 0

/-- The constructor-stored state of `EmissivityPlotWindow`
(lines 932-938): every field `_drawPlot` can read. -/
structure PlotState where
  sam : Spectrum
  dwr : Option Spectrum
  lowerTemp : ℚ
  upperTemp : ℚ
  temp : ℚ
  wave : List (ℚ × ℚ)
  search : Bool
deriving DecidableEq, Repr

/-- The final emissivity curve drawn at lines 1027-1028. -/
def finalEmissivityOf (bb : ℚ → ℚ → ℚ) (st : PlotState) : List (Option ℚ) :=
  emissivityRow bb st.sam st.dwr st.temp

/-- The per-candidate emissivity curves of the animated search
(lines 1018-1023), one row per grid temperature. -/
def searchEmissivities (bb : ℚ → ℚ → ℚ) (st : PlotState) :
    List (List (Option ℚ)) :=
  (tempsGrid st.lowerTemp st.upperTemp).map
    (fun t => emissivityRow bb st.sam st.dwr t)

/-- `_drawPlot` as a state transformer: it computes the curves (the
animated rows when `search`, and the final curve) and leaves the
engine-relevant state unchanged — the method reads `self.sam`,
`self.dwr`, `self.temp`, `self.lowerTemp`, `self.upperTemp`,
`self.wave`, `self.search` but never reassigns them. -/
def drawPlotCompute (bb : ℚ → ℚ → ℚ) (st : PlotState) :
    (List (List (Option ℚ)) × List (Option ℚ)) × PlotState :=
  ((if st.search then searchEmissivities bb st else [],
    finalEmissivityOf bb st), st)

/-- Round half to even to an integer, the rounding used by Python string
formatting at a decimal boundary. -/
def roundHalfEven (q : ℚ) : ℤ :=
  if q - ⌊q⌋ < 1/2 then ⌊q⌋
  else if q - ⌊q⌋ > 1/2 then ⌊q⌋ + 1
  else if ⌊q⌋ % 2 = 0 then ⌊q⌋ else ⌊q⌋ + 1

/-- `'{0:.1f}'.format(t)`: fixed-point rendering with one decimal
digit. -/
def formatFixed1 (t : ℚ) : String :=
  let n := roundHalfEven (t * 10)
  let sign := if n < 0 then "-" else ""
  sign ++ toString (n.natAbs / 10) ++ "." ++ toString (n.natAbs % 10)

/-- Lines 764-768 of `MainWindow.findTemperature`: the sentinel
temperature 0 displays `"Unknown"`, any other temperature displays
`'{0:.1f} K'.format(temp)`. -/
def displayTemperature (t : ℚ) : String :=
  if t = 0 then "Unknown" else formatFixed1 t ++ " K"

/-- Digit run of Python's `int(str)`: consumes the remaining characters,
failing on any non-digit. -/
def parseDigitsAux : List Char → ℕ → Option ℕ
  | [], acc => some acc
  | c :: cs, acc =>
      if c.isDigit then parseDigitsAux cs (acc * 10 + (c.toNat - 48)) else none

/-- Python's `int(str)` builtin on the strings reachable here: an
optional sign followed by decimal digits parses to that integer; any
other string (for example one containing `.`) raises `ValueError`,
modelled as `none`. -/
def pyInt (s : String) : Option ℤ :=
  match s.data with
  | [] => none
  | '-' :: cs =>
      if cs = [] then none else (parseDigitsAux cs 0).map (fun n => -(n : ℤ))
  | '+' :: cs =>
      if cs = [] then none else (parseDigitsAux cs 0).map (fun n => (n : ℤ))
  | cs => (parseDigitsAux cs 0).map (fun n => (n : ℤ))

/-- Lines 715-718 of `MainWindow.findTemperature`: an empty plate field
becomes the sentinel `-1`, otherwise the text goes through `int(...)`;
a `ValueError` (modelled `none`) aborts before calibration is called. -/
def plateEmissivityArg (s : String) : Option ℤ :=
  if s = "" then some (-1) else pyInt s

/-- The five techniques of the combo box. -/
inductive Technique
  | waterband
  | standard
  | movingWindow
  | variableMovingWindow
  | multipleMovingWindow
deriving DecidableEq, Repr

/-- The combo-box labels added at lines 294-303. -/
def techniqueText : Technique → String
  | .waterband => "Waterband Temperature Emissivity Separation"
  | .standard => "Standard Temperature Emissivity Separation"
  | .movingWindow => "Moving Window Temperature Emissivity Separation"
  | .variableMovingWindow =>
      "Variable Moving Window Temperature Emissivity Separation"
  | .multipleMovingWindow =>
      "Multiple Moving Window Temperature Emissivity Separation"

/-- Whether `sub` begins the character list `s`. -/
def matchesFront : List Char → List Char → Bool
  | [], _ => true
  | _ :: _, [] => false
  | a :: as, b :: bs => (a = b) && matchesFront as bs

/-- Python's `sub in s` substring test on character lists. -/
def hasSub (sub : List Char) : List Char → Bool
  | [] => matchesFront sub []
  | c :: rest => matchesFront sub (c :: rest) || hasSub sub rest

/-- Which engine entry `findTemperature` calls. -/
inductive SearchCall
  | waterbandTes
  | tes
deriving DecidableEq, Repr

/-- Lines 757-762 of `MainWindow.findTemperature`:
`if ('Waterband' in technique)` call `tes.waterbandTes` and set
`wave = [[lowerWave, upperWave]]`; otherwise call `tes.tes`, whose
return value supplies `wave` (modelled `none` here). -/
def searchDispatch (t : Technique) (lowerWave upperWave : ℚ) :
    SearchCall × Option (List (ℚ × ℚ)) :=
  if hasSub "Waterband".data (techniqueText t).data
  then (SearchCall.waterbandTes, some [(lowerWave, upperWave)])
  else (SearchCall.tes, none)

end TesGui

namespace TesGui

lemma displayWarning_foldl (tol : ℚ) (tests : List ℚ) (b : Bool) :
    tests.foldl (fun w test => if 100 - test * 100 > tol then true else w) b
        = true ↔
      b = true ∨ ∃ r ∈ tests, 100 - r * 100 > tol := by
  induction tests generalizing b with
  | nil => simp
  | cons x xs ih =>
    simp only [List.foldl_cons, ih]
    by_cases hx : 100 - x * 100 > tol
    · simp [hx]
    · simp only [hx, if_false, List.mem_cons]
      constructor
      · rintro (hb | ⟨r, hr, hgt⟩)
        · exact Or.inl hb
        · exact Or.inr ⟨r, Or.inr hr, hgt⟩
      · rintro (hb | ⟨r, hr | hr, hgt⟩)
        · exact Or.inl hb
        · exact absurd hgt (by rw [hr]; exact hx)
        · exact Or.inr ⟨r, hr, hgt⟩

lemma map3_length (f : ℚ → ℚ → ℚ → Option ℚ) :
    ∀ as bs cs : List ℚ,
      (map3 f as bs cs).length = min (min as.length bs.length) cs.length := by
  intro as
  induction as with
  | nil => intro bs cs; simp [map3]
  | cons a as ih =>
    intro bs cs
    cases bs with
    | nil => simp [map3]
    | cons b bs =>
      cases cs with
      | nil => simp [map3]
      | cons c cs =>
        simp only [map3, List.length_cons, ih]
        omega

lemma map3_getElem? (f : ℚ → ℚ → ℚ → Option ℚ) :
    ∀ (as bs cs : List ℚ) (i : ℕ),
      i < as.length → i < bs.length → i < cs.length →
      (map3 f as bs cs)[i]? =
        some (f (as.getD i 0) (bs.getD i 0) (cs.getD i 0)) := by
  intro as
  induction as with
  | nil => intro bs cs i h; simp at h
  | cons a as ih =>
    intro bs cs i ha hb hc
    cases bs with
    | nil => simp at hb
    | cons b bs =>
      cases cs with
      | nil => simp at hc
      | cons c cs =>
        cases i with
        | zero => simp [map3, List.getD]
        | succ j =>
          have ha' : j < as.length := by simpa using ha
          have hb' : j < bs.length := by simpa using hb
          have hc' : j < cs.length := by simpa using hc
          simpa [map3, List.getD] using ih bs cs j ha' hb' hc'

lemma getD_replicate_zero : ∀ n i : ℕ, (List.replicate n (0:ℚ)).getD i 0 = 0 := by
  intro n
  induction n with
  | zero => intro i; simp [List.getD]
  | succ m ih =>
    intro i
    cases i with
    | zero => simp [List.replicate, List.getD]
    | succ j => simp [List.replicate, List.getD, ih]

lemma append_K_ne_unknown (s : String) : s ++ " K" ≠ "Unknown" := by
  intro h
  have hd : s.data ++ [' ', 'K'] = "Unknown".data := by
    rw [← String.data_append, h]
  have h2 : (s.data ++ [' ', 'K']).getLast? = ("Unknown".data).getLast? := by
    rw [hd]
  simp [List.getLast?_append] at h2

end TesGui

/-- C6: the number of window-width steps supplied to the search equals 1
when `lowerWin = upperWin`, and `(upperWin − lowerWin)/windowStep + 1`
otherwise. -/
theorem C6_windowSteps (lowerWin upperWin windowStep : ℚ) :
    (lowerWin = upperWin →
      TesGui.windowStepsOf lowerWin upperWin windowStep = 1) ∧
    (lowerWin ≠ upperWin →
      TesGui.windowStepsOf lowerWin upperWin windowStep =
        (upperWin - lowerWin) / windowStep + 1) := by
  constructor
  · intro h
    simp [TesGui.windowStepsOf, h]
  · intro h
    simp [TesGui.windowStepsOf, Ne.symm h]

/-- Witness for C6 at concrete inputs. -/
theorem C6_windowSteps_witness :
    ((2 : ℚ) = 2 → TesGui.windowStepsOf 2 2 (1/2) = 1) ∧
    ((1 : ℚ) ≠ 2 ∧ TesGui.windowStepsOf 1 2 (1/2) = (2 - 1) / (1/2) + 1) :=
  ⟨(C6_windowSteps 2 2 (1/2)).1,
   by norm_num,
   (C6_windowSteps 1 2 (1/2)).2 (by norm_num)⟩

/-- C9: with all four window fields empty, the windowed search receives
`lowerWin = upperWin = upperWave − lowerWave`, exactly one window-width
step, and `numWindows = 1` — a single window spanning the full band. -/
theorem C9_emptyWindowFields (lowerWave upperWave : ℚ) :
    TesGui.resolveWindowParams none none none none lowerWave upperWave =
      ⟨upperWave - lowerWave, upperWave - lowerWave, 1, 1, 1⟩ := by
  simp [TesGui.resolveWindowParams, TesGui.windowStepsOf]

/-- C7: the coadd-variation warning is shown iff some consistency ratio
`r` satisfies `100·(1 − r) > tolerance`; when every ratio equals 1, no
warning is shown for any nonnegative tolerance. -/
theorem C7_toleranceWarning (toleranceTests : List ℚ) (tolerance : ℚ) :
    (TesGui.displayWarningOf toleranceTests tolerance = true ↔
      ∃ r ∈ toleranceTests, 100 * (1 - r) > tolerance) ∧
    (0 ≤ tolerance → (∀ r ∈ toleranceTests, r = 1) →
      TesGui.displayWarningOf toleranceTests tolerance = false) := by
  have hiff : TesGui.displayWarningOf toleranceTests tolerance = true ↔
      ∃ r ∈ toleranceTests, 100 * (1 - r) > tolerance := by
    rw [TesGui.displayWarningOf, TesGui.displayWarning_foldl]
    constructor
    · rintro (hb | ⟨r, hr, hgt⟩)
      · exact absurd hb (by simp)
      · exact ⟨r, hr, by linarith⟩
    · rintro ⟨r, hr, hgt⟩
      exact Or.inr ⟨r, hr, by linarith⟩
  refine ⟨hiff, fun htol hall => ?_⟩
  rw [← Bool.not_eq_true, hiff]
  rintro ⟨r, hr, hgt⟩
  rw [hall r hr] at hgt
  simp at hgt
  linarith

/-- Witness for C7 at concrete inputs. -/
theorem C7_toleranceWarning_witness :
    TesGui.displayWarningOf [1, 1/2] 10 = true ∧
    ((0 : ℚ) ≤ 0 ∧ TesGui.displayWarningOf [1, 1] 0 = false) :=
  ⟨(C7_toleranceWarning [1, 1/2] 10).1.mpr ⟨1/2, by norm_num, by norm_num⟩,
   le_refl 0,
   (C7_toleranceWarning [1, 1] 0).2 (le_refl 0)
     (by intro r hr; simpa using hr)⟩



/-- C1 counterexample: with `lowerTemp = 280` and `upperTemp = 310`, the
temperature grid the search trace is aligned with contains 310.9 K,
which exceeds `upperTemp`. -/
theorem C1_counterexample :
    ((3109 : ℚ)/10) ∈ TesGui.tempsGrid 280 310 ∧ (310 : ℚ) < 3109/10 := by
  refine ⟨?_, by norm_num⟩
  have h : (⌈(((310:ℚ) + 1) - 280) / (1/10)⌉).toNat = 310 := by
    have hc : (⌈(((310:ℚ) + 1) - 280) / (1/10)⌉) = 310 := by norm_num
    rw [hc]
    rfl
  simp only [TesGui.tempsGrid, TesGui.arange, h, List.mem_map, List.mem_range]
  exact ⟨309, by norm_num, by norm_num⟩

/-- C1 amended: the candidate temperatures are the 0.1 K grid starting
at `lowerTemp` and running up to (but excluding) `upperTemp + 1`; in
particular, whenever `lowerTemp ≤ upperTemp` the grid contains
temperatures strictly above `upperTemp`. -/
theorem C1_tempsGrid (lowerTemp upperTemp : ℚ) (h : lowerTemp ≤ upperTemp) :
    (∀ t ∈ TesGui.tempsGrid lowerTemp upperTemp,
      (∃ k : ℕ, t = lowerTemp + k / 10) ∧ lowerTemp ≤ t ∧ t < upperTemp + 1) ∧
    (∃ t ∈ TesGui.tempsGrid lowerTemp upperTemp, upperTemp < t) := by
  have hx : ((upperTemp + 1) - lowerTemp) / (1/10) =
      10 * (upperTemp + 1 - lowerTemp) := by ring
  have hceil : (9 : ℤ) < ⌈10 * (upperTemp + 1 - lowerTemp)⌉ :=
    Int.lt_ceil.mpr (by push_cast; linarith)
  have hNz : ((⌈10 * (upperTemp + 1 - lowerTemp)⌉.toNat : ℤ)) =
      ⌈10 * (upperTemp + 1 - lowerTemp)⌉ :=
    Int.toNat_of_nonneg (by omega)
  constructor
  · intro t ht
    simp only [TesGui.tempsGrid, TesGui.arange, hx, List.mem_map,
      List.mem_range] at ht
    obtain ⟨i, hi, rfl⟩ := ht
    have hiz : (i : ℤ) < ⌈10 * (upperTemp + 1 - lowerTemp)⌉ := by omega
    have hiq : ((i : ℤ) : ℚ) < 10 * (upperTemp + 1 - lowerTemp) :=
      Int.lt_ceil.mp hiz
    have hiq' : (i : ℚ) < 10 * (upperTemp + 1 - lowerTemp) := by
      exact_mod_cast hiq
    refine ⟨⟨i, by ring⟩, ?_, ?_⟩
    · have hnn : (0:ℚ) ≤ (i:ℚ) := Nat.cast_nonneg i
      linarith
    · linarith
  · have h1 : 1 ≤ ⌈10 * (upperTemp + 1 - lowerTemp)⌉.toNat := by omega
    simp only [TesGui.tempsGrid, TesGui.arange, hx, List.mem_map,
      List.mem_range]
    refine ⟨lowerTemp + 1/10 *
        ((⌈10 * (upperTemp + 1 - lowerTemp)⌉.toNat - 1 : ℕ) : ℚ),
      ⟨⌈10 * (upperTemp + 1 - lowerTemp)⌉.toNat - 1, by omega, rfl⟩, ?_⟩
    have hle := Int.le_ceil (10 * (upperTemp + 1 - lowerTemp) : ℚ)
    have hQ : ((⌈10 * (upperTemp + 1 - lowerTemp)⌉ : ℤ) : ℚ) =
        ((⌈10 * (upperTemp + 1 - lowerTemp)⌉.toNat : ℕ) : ℚ) := by
      exact_mod_cast hNz.symm
    have hcast : ((⌈10 * (upperTemp + 1 - lowerTemp)⌉.toNat - 1 : ℕ) : ℚ) =
        ((⌈10 * (upperTemp + 1 - lowerTemp)⌉.toNat : ℕ) : ℚ) - 1 := by
      rw [Nat.cast_sub h1]
      norm_num
    rw [hcast]
    linarith

/-- C1 witness for the amended statement at `lowerTemp = 280`,
`upperTemp = 310`. -/
theorem C1_tempsGrid_witness :
    ((280 : ℚ) ≤ 310) ∧
    ((∀ t ∈ TesGui.tempsGrid 280 310,
        (∃ k : ℕ, t = 280 + k / 10) ∧ (280:ℚ) ≤ t ∧ t < 310 + 1) ∧
     (∃ t ∈ TesGui.tempsGrid 280 310, (310:ℚ) < t)) :=
  ⟨by norm_num, C1_tempsGrid 280 310 (by norm_num)⟩

/-- C2 counterexample: at a candidate temperature where the blackbody
radiance equals the downwelling radiance the denominator is zero, yet
the computed emissivity array retains a non-finite entry — nothing is
flagged or excluded. -/
theorem C2_counterexample :
    TesGui.emissivityRow (fun _ _ => 1) ⟨[10], [5]⟩ (some ⟨[10], [1]⟩) 300 =
      [none] := by
  simp [TesGui.emissivityRow, TesGui.map3, TesGui.dwrRadianceOf,
    TesGui.floatDiv]

/-- C2 amended: `_drawPlot` divides unconditionally — the emissivity
array always has one entry per wavelength bin, and at any bin where
`B(T,λ)` equals the downwelling radiance the entry is the non-finite
result of dividing by zero, silently kept in the array. -/
theorem C2_unguardedDivision (bb : ℚ → ℚ → ℚ) (sam : TesGui.Spectrum)
    (dwr : Option TesGui.Spectrum) (t : ℚ) :
    (TesGui.emissivityRow bb sam dwr t).length =
      min (min sam.value.length
        (TesGui.dwrRadianceOf dwr sam.value.length).length)
        sam.wavelength.length ∧
    (∀ i, i < sam.value.length →
      i < (TesGui.dwrRadianceOf dwr sam.value.length).length →
      i < sam.wavelength.length →
      bb t (sam.wavelength.getD i 0) =
        (TesGui.dwrRadianceOf dwr sam.value.length).getD i 0 →
      (TesGui.emissivityRow bb sam dwr t).getD i (some 0) = none) := by
  constructor
  · simp only [TesGui.emissivityRow]
    exact TesGui.map3_length _ _ _ _
  · intro i h1 h2 h3 heq
    simp only [TesGui.emissivityRow, List.getD_eq_getElem?_getD]
    rw [TesGui.map3_getElem? _ _ _ _ i h1 h2 h3, Option.getD_some]
    simp only [List.getD_eq_getElem?_getD] at heq
    simp [TesGui.floatDiv, heq]

/-- C2 witness for the amended statement at a concrete zero-denominator
input. -/
theorem C2_unguardedDivision_witness :
    (0 < (⟨[10], [5]⟩ : TesGui.Spectrum).value.length) ∧
    (0 < (TesGui.dwrRadianceOf (some ⟨[10], [1]⟩)
      (⟨[10], [5]⟩ : TesGui.Spectrum).value.length).length) ∧
    (0 < (⟨[10], [5]⟩ : TesGui.Spectrum).wavelength.length) ∧
    ((fun _ _ => (1:ℚ)) 300
        ((⟨[10], [5]⟩ : TesGui.Spectrum).wavelength.getD 0 0) =
      (TesGui.dwrRadianceOf (some ⟨[10], [1]⟩)
        (⟨[10], [5]⟩ : TesGui.Spectrum).value.length).getD 0 0) ∧
    (TesGui.emissivityRow (fun _ _ => 1) ⟨[10], [5]⟩ (some ⟨[10], [1]⟩)
      300).getD 0 (some 0) = none :=
  ⟨by norm_num, by norm_num [TesGui.dwrRadianceOf], by norm_num,
   by norm_num [TesGui.dwrRadianceOf],
   (C2_unguardedDivision (fun _ _ => 1) ⟨[10], [5]⟩ (some ⟨[10], [1]⟩) 300).2
     0 (by norm_num) (by norm_num [TesGui.dwrRadianceOf]) (by norm_num)
     (by norm_num [TesGui.dwrRadianceOf])⟩

/-- C3: the computed emissivity at bin `i` equals
`(L_sample − L_down) / (B(T,λ) − L_down)` with `L_down` the downwelling
value when supplied and zero when absent. -/
theorem C3_emissivityFormula (bb : ℚ → ℚ → ℚ) (sam : TesGui.Spectrum)
    (dwr : Option TesGui.Spectrum) (t : ℚ) (i : ℕ)
    (hw : sam.wavelength.length = sam.value.length)
    (hd : ∀ d, dwr = some d → d.value.length = sam.value.length)
    (hi : i < sam.value.length) :
    (TesGui.emissivityRow bb sam dwr t).getD i none =
      TesGui.specEmissivityAt bb (sam.value.getD i 0) (TesGui.specLdown dwr i)
        t (sam.wavelength.getD i 0) := by
  have hdl : (TesGui.dwrRadianceOf dwr sam.value.length).length =
      sam.value.length := by
    cases dwr with
    | none => simp [TesGui.dwrRadianceOf]
    | some d => simpa [TesGui.dwrRadianceOf] using hd d rfl
  have hgd : (TesGui.dwrRadianceOf dwr sam.value.length).getD i 0 =
      TesGui.specLdown dwr i := by
    cases dwr with
    | none =>
        simp [TesGui.dwrRadianceOf, TesGui.specLdown, TesGui.getD_replicate_zero]
    | some d => simp [TesGui.dwrRadianceOf, TesGui.specLdown]
  simp only [TesGui.emissivityRow, List.getD_eq_getElem?_getD]
  rw [TesGui.map3_getElem? _ _ _ _ i hi (by omega) (by omega), Option.getD_some]
  simp only [List.getD_eq_getElem?_getD] at hgd
  simp [hgd, TesGui.specEmissivityAt, List.getD_eq_getElem?_getD]

/-- C3 witness at a concrete two-bin spectrum with no downwelling. -/
theorem C3_emissivityFormula_witness :
    ((⟨[10, 11], [5, 6]⟩ : TesGui.Spectrum).wavelength.length =
      (⟨[10, 11], [5, 6]⟩ : TesGui.Spectrum).value.length) ∧
    (1 < (⟨[10, 11], [5, 6]⟩ : TesGui.Spectrum).value.length) ∧
    (TesGui.emissivityRow (fun a w => a + w) ⟨[10, 11], [5, 6]⟩ none
        300).getD 1 none =
      TesGui.specEmissivityAt (fun a w => a + w)
        ((⟨[10, 11], [5, 6]⟩ : TesGui.Spectrum).value.getD 1 0)
        (TesGui.specLdown none 1) 300
        ((⟨[10, 11], [5, 6]⟩ : TesGui.Spectrum).wavelength.getD 1 0) :=
  ⟨rfl, by norm_num,
   C3_emissivityFormula (fun a w => a + w) ⟨[10, 11], [5, 6]⟩ none 300 1 rfl
     (fun d hderiv => by cases hderiv) (by norm_num)⟩

/-- C4 (code bug): the plate-emissivity field goes through Python's
`int(...)`, so the in-range fractional entry "0.95" raises `ValueError`
instead of reaching calibration as 0.95; the empty entry does become the
sentinel −1, and only whole numbers such as "1" survive parsing. -/
theorem C4_plateIntParse :
    TesGui.plateEmissivityArg "0.95" = none ∧
    TesGui.plateEmissivityArg "" = some (-1) ∧
    TesGui.plateEmissivityArg "1" = some 1 := by
  refine ⟨?_, ?_, ?_⟩ <;> decide

/-- C5: the sentinel temperature 0.0 displays "Unknown"; every nonzero
temperature displays its formatted numeric value, never "Unknown". -/
theorem C5_displaySentinel (t : ℚ) :
    (t = 0 → TesGui.displayTemperature t = "Unknown") ∧
    (t ≠ 0 → TesGui.displayTemperature t = TesGui.formatFixed1 t ++ " K" ∧
      TesGui.displayTemperature t ≠ "Unknown") := by
  constructor
  · intro h
    simp [TesGui.displayTemperature, h]
  · intro h
    have he : TesGui.displayTemperature t = TesGui.formatFixed1 t ++ " K" := by
      simp [TesGui.displayTemperature, h]
    refine ⟨he, ?_⟩
    rw [he]
    exact TesGui.append_K_ne_unknown _

/-- C5 witness: the sentinel and the temperature 300 K. -/
theorem C5_displaySentinel_witness :
    TesGui.displayTemperature 0 = "Unknown" ∧
    ((300 : ℚ) ≠ 0 ∧ TesGui.displayTemperature 300 = "300.0 K") := by
  refine ⟨(C5_displaySentinel 0).1 rfl, by norm_num, ?_⟩
  have h := (C5_displaySentinel 300).2 (by norm_num)
  rw [h.1]
  have h1 : TesGui.roundHalfEven (300 * 10) = 3000 := by
    have hf : ⌊(300 * 10 : ℚ)⌋ = 3000 := by norm_num
    simp only [TesGui.roundHalfEven, hf]
    norm_num
  simp only [TesGui.formatFixed1, h1]
  decide

/-- C8: the emissivity computation of `_drawPlot` is a pure function of
the sample spectrum, the downwelling spectrum (or its absence) and the
candidate temperature — two window states agreeing on those inputs
produce identical curves — and the evaluation leaves the stored state
unchanged, so nothing persists between invocations. -/
theorem C8_pureEvaluation (bb : ℚ → ℚ → ℚ) (st1 st2 : TesGui.PlotState)
    (hs : st1.sam = st2.sam) (hd : st1.dwr = st2.dwr)
    (ht : st1.temp = st2.temp) :
    TesGui.finalEmissivityOf bb st1 = TesGui.finalEmissivityOf bb st2 ∧
    (TesGui.drawPlotCompute bb st1).2 = st1 ∧
    (TesGui.drawPlotCompute bb st2).2 = st2 := by
  refine ⟨?_, rfl, rfl⟩
  simp only [TesGui.finalEmissivityOf]
  rw [hs, hd, ht]

/-- C8 witness: two states sharing sample, downwelling and temperature
but differing in every other field. -/
theorem C8_pureEvaluation_witness :
    ((⟨⟨[10], [5]⟩, none, 280, 310, 300, [], false⟩ :
        TesGui.PlotState).sam =
      (⟨⟨[10], [5]⟩, none, 0, 1, 300, [(8, 14)], true⟩ :
        TesGui.PlotState).sam) ∧
    ((⟨⟨[10], [5]⟩, none, 280, 310, 300, [], false⟩ :
        TesGui.PlotState).dwr =
      (⟨⟨[10], [5]⟩, none, 0, 1, 300, [(8, 14)], true⟩ :
        TesGui.PlotState).dwr) ∧
    ((⟨⟨[10], [5]⟩, none, 280, 310, 300, [], false⟩ :
        TesGui.PlotState).temp =
      (⟨⟨[10], [5]⟩, none, 0, 1, 300, [(8, 14)], true⟩ :
        TesGui.PlotState).temp) ∧
    (TesGui.finalEmissivityOf (fun _ _ => 1)
        ⟨⟨[10], [5]⟩, none, 280, 310, 300, [], false⟩ =
      TesGui.finalEmissivityOf (fun _ _ => 1)
        ⟨⟨[10], [5]⟩, none, 0, 1, 300, [(8, 14)], true⟩) ∧
    (TesGui.drawPlotCompute (fun _ _ => 1)
        ⟨⟨[10], [5]⟩, none, 280, 310, 300, [], false⟩).2 =
      ⟨⟨[10], [5]⟩, none, 280, 310, 300, [], false⟩ :=
  ⟨rfl, rfl, rfl,
   (C8_pureEvaluation (fun _ _ => 1)
     ⟨⟨[10], [5]⟩, none, 280, 310, 300, [], false⟩
     ⟨⟨[10], [5]⟩, none, 0, 1, 300, [(8, 14)], true⟩ rfl rfl rfl).1,
   (C8_pureEvaluation (fun _ _ => 1)
     ⟨⟨[10], [5]⟩, none, 280, 310, 300, [], false⟩
     ⟨⟨[10], [5]⟩, none, 0, 1, 300, [(8, 14)], true⟩ rfl rfl rfl).2.1⟩

/-- C10: exactly the Waterband technique routes to `tes.waterbandTes`
(with the reported window `[[lowerWave, upperWave]]`); the other four
techniques route to `tes.tes`. -/
theorem C10_techniqueDispatch (t : TesGui.Technique)
    (lowerWave upperWave : ℚ) :
    ((TesGui.searchDispatch t lowerWave upperWave).1 =
        TesGui.SearchCall.waterbandTes ↔ t = TesGui.Technique.waterband) ∧
    (t = TesGui.Technique.waterband →
      TesGui.searchDispatch t lowerWave upperWave =
        (TesGui.SearchCall.waterbandTes, some [(lowerWave, upperWave)])) ∧
    (t ≠ TesGui.Technique.waterband →
      (TesGui.searchDispatch t lowerWave upperWave).1 =
        TesGui.SearchCall.tes) := by
  cases t with
  | waterband =>
      have hc : TesGui.hasSub "Waterband".data
          (TesGui.techniqueText TesGui.Technique.waterband).data = true := by
        decide
      simp [TesGui.searchDispatch, hc]
  | standard =>
      have hc : TesGui.hasSub "Waterband".data
          (TesGui.techniqueText TesGui.Technique.standard).data = false := by
        decide
      simp [TesGui.searchDispatch, hc]
  | movingWindow =>
      have hc : TesGui.hasSub "Waterband".data
          (TesGui.techniqueText TesGui.Technique.movingWindow).data = false := by
        decide
      simp [TesGui.searchDispatch, hc]
  | variableMovingWindow =>
      have hc : TesGui.hasSub "Waterband".data
          (TesGui.techniqueText
            TesGui.Technique.variableMovingWindow).data = false := by
        decide
      simp [TesGui.searchDispatch, hc]
  | multipleMovingWindow =>
      have hc : TesGui.hasSub "Waterband".data
          (TesGui.techniqueText
            TesGui.Technique.multipleMovingWindow).data = false := by
        decide
      simp [TesGui.searchDispatch, hc]

/-- C10 witness: the Waterband and Standard techniques at a concrete
band. -/
theorem C10_techniqueDispatch_witness :
    (TesGui.searchDispatch TesGui.Technique.waterband 8 14).1 =
      TesGui.SearchCall.waterbandTes ∧
    TesGui.searchDispatch TesGui.Technique.waterband 8 14 =
      (TesGui.SearchCall.waterbandTes, some [((8:ℚ), (14:ℚ))]) ∧
    TesGui.Technique.standard ≠ TesGui.Technique.waterband ∧
    (TesGui.searchDispatch TesGui.Technique.standard 8 14).1 =
      TesGui.SearchCall.tes :=
  ⟨(C10_techniqueDispatch TesGui.Technique.waterband 8 14).1.mpr rfl,
   (C10_techniqueDispatch TesGui.Technique.waterband 8 14).2.1 rfl,
   by decide,
   (C10_techniqueDispatch TesGui.Technique.standard 8 14).2.2 (by decide)⟩
